import Mathlib

/-!
Verification of the scene-manager unit of the Credenza OpenGL scene
editor (SceneManager.cpp / SceneManager.h / MainCode.cpp).

The C++ code is shallowly embedded: `float` scalars are modelled as exact
rationals (`ℚ`), `glm` vectors as records of rationals, `std::vector` as
`List`, `std::function<void()>` draw captures as an `Option DrawKind`
(with `none` standing for a default-constructed, empty `std::function`),
and the shader backend's uniform store as an explicit `ShaderState`
record.  File I/O is factored out: a scene file is modelled as the list
of JSON records it holds (`none` when the file cannot be opened), and
Assimp model parsing as an environment mapping an asset path to its node
tree (`none` when parsing fails).  Trigonometry is kept symbolic: render
code is parameterized by an oracle `trig : ℚ → ℚ × ℚ` standing for
`θ ↦ (cos (radians θ), sin (radians θ))` on angles given in degrees.
-/

namespace Credenza

/-- 2-component vector (`glm::vec2`). -/
structure Vec2 where
  x : ℚ
  y : ℚ
deriving DecidableEq

/-- 3-component vector (`glm::vec3`). -/
structure Vec3 where
  x : ℚ
  y : ℚ
  z : ℚ
deriving DecidableEq

/-- 4-component RGBA vector (`glm::vec4`). -/
structure Vec4 where
  r : ℚ
  g : ℚ
  b : ℚ
  a : ℚ
deriving DecidableEq

/-- The deferred draw call captured in `MESH_OBJECT::drawFunction`:
either one of the ten `ShapeMeshes` primitive draws bound by the
`Add*` methods and the deserializer, or an imported-mesh draw capturing
the GPU buffer handle and index count built in `ProcessMesh`. -/
inductive DrawKind where
  | box
  | cone
  | cylinder
  | plane
  | prism
  | pyramid3
  | pyramid4
  | sphere
  | taperedCylinder
  | torus
  | imported (vao : Nat) (indexCount : Nat)
deriving DecidableEq

/-- `SceneManager::MESH_OBJECT` (SceneManager.h lines 91-103), field
order as in the source; `drawFunction` is `none` when the
`std::function` member is empty (default-constructed), and `isRotating`
carries the in-class initializer `= false`. -/
structure MESH_OBJECT where
  tag : String
  rotation : Vec3
  position : Vec3
  scale : Vec3
  materialTag : String
  textureTag : String
  uvScale : Vec2
  shaderColor : Vec4
  drawFunction : Option DrawKind := none
  isRotating : Bool := false
deriving DecidableEq

/-- `SceneManager::TEXTURE_INFO` (SceneManager.h lines 74-78). -/
structure TEXTURE_INFO where
  tag : String
  ID : Nat
deriving DecidableEq

/-- `SceneManager::OBJECT_MATERIAL` (SceneManager.h lines 80-88). -/
structure OBJECT_MATERIAL where
  ambientStrength : ℚ
  ambientColor : Vec3
  diffuseColor : Vec3
  specularColor : Vec3
  shininess : ℚ
  tag : String
deriving DecidableEq

/-- Size of the `m_textureIDs` array: `TEXTURE_INFO m_textureIDs[16]`
(SceneManager.h line 170). -/
def TEXTURE_SLOTS : Nat := 16

/-- The mutable state of a `SceneManager` object: the instance list
`m_meshes`, the texture registry (`m_textureIDs` entries written so far,
so `m_loadedTextures` is its length), the material registry
`m_objectMaterials`, and the public scene-level `isRotating` flag
(SceneManager.h line 157). -/
structure SceneState where
  m_meshes : List MESH_OBJECT
  m_textureIDs : List TEXTURE_INFO
  m_objectMaterials : List OBJECT_MATERIAL
  isRotating : Bool
deriving DecidableEq

/-! ## 4x4 matrices (`glm::mat4`), entry `aRC` = row R, column C -/

/-- A 4x4 rational matrix; `aRC` is the entry at row `R`, column `C`
(mathematical layout: a `glm` translation has its offset in column 3). -/
structure Mat4 where
  a00 : ℚ
  a01 : ℚ
  a02 : ℚ
  a03 : ℚ
  a10 : ℚ
  a11 : ℚ
  a12 : ℚ
  a13 : ℚ
  a20 : ℚ
  a21 : ℚ
  a22 : ℚ
  a23 : ℚ
  a30 : ℚ
  a31 : ℚ
  a32 : ℚ
  a33 : ℚ
deriving DecidableEq

/-- Matrix product, `glm` operator `*`. -/
def matMul (A B : Mat4) : Mat4 where
  a00 := A.a00 * B.a00 + A.a01 * B.a10 + A.a02 * B.a20 + A.a03 * B.a30
  a01 := A.a00 * B.a01 + A.a01 * B.a11 + A.a02 * B.a21 + A.a03 * B.a31
  a02 := A.a00 * B.a02 + A.a01 * B.a12 + A.a02 * B.a22 + A.a03 * B.a32
  a03 := A.a00 * B.a03 + A.a01 * B.a13 + A.a02 * B.a23 + A.a03 * B.a33
  a10 := A.a10 * B.a00 + A.a11 * B.a10 + A.a12 * B.a20 + A.a13 * B.a30
  a11 := A.a10 * B.a01 + A.a11 * B.a11 + A.a12 * B.a21 + A.a13 * B.a31
  a12 := A.a10 * B.a02 + A.a11 * B.a12 + A.a12 * B.a22 + A.a13 * B.a32
  a13 := A.a10 * B.a03 + A.a11 * B.a13 + A.a12 * B.a23 + A.a13 * B.a33
  a20 := A.a20 * B.a00 + A.a21 * B.a10 + A.a22 * B.a20 + A.a23 * B.a30
  a21 := A.a20 * B.a01 + A.a21 * B.a11 + A.a22 * B.a21 + A.a23 * B.a31
  a22 := A.a20 * B.a02 + A.a21 * B.a12 + A.a22 * B.a22 + A.a23 * B.a32
  a23 := A.a20 * B.a03 + A.a21 * B.a13 + A.a22 * B.a23 + A.a23 * B.a33
  a30 := A.a30 * B.a00 + A.a31 * B.a10 + A.a32 * B.a20 + A.a33 * B.a30
  a31 := A.a30 * B.a01 + A.a31 * B.a11 + A.a32 * B.a21 + A.a33 * B.a31
  a32 := A.a30 * B.a02 + A.a31 * B.a12 + A.a32 * B.a22 + A.a33 * B.a32
  a33 := A.a30 * B.a03 + A.a31 * B.a13 + A.a32 * B.a23 + A.a33 * B.a33

/-- Apply a matrix to a point, `glm` style: extend `p` to
`vec4(p, 1.0)`, multiply, keep the xyz components. -/
def applyToPoint (M : Mat4) (p : Vec3) : Vec3 where
  x := M.a00 * p.x + M.a01 * p.y + M.a02 * p.z + M.a03
  y := M.a10 * p.x + M.a11 * p.y + M.a12 * p.z + M.a13
  z := M.a20 * p.x + M.a21 * p.y + M.a22 * p.z + M.a23

/-- `glm::translate(positionXYZ)`. -/
def translationM (p : Vec3) : Mat4 :=
  ⟨1, 0, 0, p.x, 0, 1, 0, p.y, 0, 0, 1, p.z, 0, 0, 0, 1⟩

/-- `glm::scale(scaleXYZ)`. -/
def scaleM (s : Vec3) : Mat4 :=
  ⟨s.x, 0, 0, 0, 0, s.y, 0, 0, 0, 0, s.z, 0, 0, 0, 0, 1⟩

/-- `glm::rotate(angle, vec3(1,0,0))` with `c = cos angle`,
`s = sin angle`. -/
def rotationXM (c s : ℚ) : Mat4 :=
  ⟨1, 0, 0, 0, 0, c, -s, 0, 0, s, c, 0, 0, 0, 0, 1⟩

/-- `glm::rotate(angle, vec3(0,1,0))`. -/
def rotationYM (c s : ℚ) : Mat4 :=
  ⟨c, 0, s, 0, 0, 1, 0, 0, -s, 0, c, 0, 0, 0, 0, 1⟩

/-- `glm::rotate(angle, vec3(0,0,1))`. -/
def rotationZM (c s : ℚ) : Mat4 :=
  ⟨c, -s, 0, 0, s, c, 0, 0, 0, 0, 1, 0, 0, 0, 0, 1⟩

/-- The origin point `(0,0,0)`. -/
def origin0 : Vec3 := ⟨0, 0, 0⟩

/-! ## Substring search (`std::string::find(pat) != npos`) -/

/-- Character-list version of "pat is a leading segment of s". -/
def listStartsWith : List Char → List Char → Bool
  | [], _ => true
  | _ :: _, [] => false
  | a :: as, b :: bs => a = b && listStartsWith as bs

/-- Character-list version of "pat occurs somewhere inside s". -/
def listHasInfix (pat : List Char) : List Char → Bool
  | [] => listStartsWith pat []
  | c :: t => listStartsWith pat (c :: t) || listHasInfix pat t

/-- `s.find(pat) != std::string::npos`: `pat` occurs in `s`. -/
def strContains (s pat : String) : Bool :=
  listHasInfix pat.toList s.toList

/-! ## Texture registry (`CreateGLTexture`, `FindTextureSlot`) -/

/-- The result of the delegated `stbi_load` call: the decoded image's
channel count, together with the GPU texture name the subsequent
`glGenTextures` would produce.  `none` models a decode failure. -/
structure ImageData where
  channels : Nat
  texID : Nat
deriving DecidableEq

/-- `SceneManager::CreateGLTexture` (SceneManager.cpp lines 64-128):
on decode failure return `false`; for a 3- or 4-channel image upload the
texture, then execute `m_textureIDs[m_loadedTextures] = entry;
m_loadedTextures++` and return `true`; for any other channel count
return `false` without registering.  The source performs the store with
NO capacity check against the 16-element array, so the model appends
unconditionally: an append taking the list past `TEXTURE_SLOTS` entries
corresponds to the out-of-bounds write `m_textureIDs[16] = ...`. -/
def createGLTexture (img : Option ImageData) (tag : String)
    (st : SceneState) : Bool × SceneState :=
  match img with
  | none => (false, st)
  | some im =>
    if im.channels = 3 ∨ im.channels = 4 then
      (true, { st with m_textureIDs := st.m_textureIDs ++ [⟨tag, im.texID⟩] })
    else
      (false, st)

/-- `SceneManager::FindTextureSlot` (SceneManager.cpp lines 192-210):
linear scan for the first entry whose tag compares equal, returning its
slot index, or `-1` when no entry matches. -/
def findTextureSlot (texs : List TEXTURE_INFO) (tag : String) : Int :=
  match texs.findIdx? (fun t => t.tag = tag) with
  | some i => (i : Int)
  | none => -1

/-! ## Material registry (`FindMaterial`, `SetShaderMaterial`) -/

/-- `SceneManager::FindMaterial` (SceneManager.cpp lines 218-245):
returns `false` only when the registry is empty; otherwise it scans for
the first tag match, copies the matched fields into the caller's
out-parameter, and then returns `true` REGARDLESS of whether the scan
found anything (`bFound` is computed but the final statement is
`return(true)`).  The second component is the out-parameter: `some m`
when the scan wrote the matched material, `none` when it left the
caller's variable untouched. -/
def findMaterial (mats : List OBJECT_MATERIAL) (tag : String) :
    Bool × Option OBJECT_MATERIAL :=
  if mats.length = 0 then
    (false, none)
  else
    (true, mats.find? (fun m => m.tag = tag))

/-- The shader backend's uniform store: the `model` matrix, the five
`material.*` uniforms, `bUseTexture`, the `objectTexture` sampler slot,
`objectColor` and `UVscale`. -/
structure ShaderState where
  modelMatrix : Mat4
  ambientColor : Vec3
  ambientStrength : ℚ
  diffuseColor : Vec3
  specularColor : Vec3
  shininess : ℚ
  bUseTexture : Bool
  textureSampler : Int
  objectColor : Vec4
  uvScale : Vec2
deriving DecidableEq

/-- `SceneManager::SetShaderMaterial` (SceneManager.cpp lines 351-369):
when the registry is non-empty, call `FindMaterial` on a
default-constructed local `OBJECT_MATERIAL material;` and, if it
returned `true`, push the local's five fields to the shader.  Because
`FindMaterial` returns `true` for every lookup against a non-empty
registry, a miss pushes the local's still-indeterminate contents; the
parameter `uninit` stands for those indeterminate stack contents. -/
def setShaderMaterial (uninit : OBJECT_MATERIAL)
    (mats : List OBJECT_MATERIAL) (materialTag : String)
    (sh : ShaderState) : ShaderState :=
  if mats.length > 0 then
    let r := findMaterial mats materialTag
    if r.1 then
      let m := r.2.getD uninit
      { sh with
        ambientColor := m.ambientColor
        ambientStrength := m.ambientStrength
        diffuseColor := m.diffuseColor
        specularColor := m.specularColor
        shininess := m.shininess }
    else
      sh
  else
    sh

/-- `SceneManager::SetShaderColor` (SceneManager.cpp lines 291-310):
unconditionally sets `bUseTexture` to `false` and pushes the color. -/
def setShaderColor (c : Vec4) (sh : ShaderState) : ShaderState :=
  { sh with bUseTexture := false, objectColor := c }

/-- `SceneManager::SetShaderTexture` (SceneManager.cpp lines 318-329):
unconditionally sets `bUseTexture` to `true` and pushes the
`FindTextureSlot` result (`-1` on a miss) as the sampler slot. -/
def setShaderTexture (texs : List TEXTURE_INFO) (textureTag : String)
    (sh : ShaderState) : ShaderState :=
  { sh with bUseTexture := true, textureSampler := findTextureSlot texs textureTag }

/-- `SceneManager::SetTextureUVScale` (SceneManager.cpp lines 337-343). -/
def setTextureUVScale (u v : ℚ) (sh : ShaderState) : ShaderState :=
  { sh with uvScale := ⟨u, v⟩ }

/-- A trigonometry oracle: `trig θ = (cos (glm::radians θ), sin
(glm::radians θ))` for an angle `θ` in degrees.  The render code is
parameterized by it because cosine and sine of arbitrary angles are not
rational; any instantiation used in a concrete theorem lists exact
values (e.g. `trig 90 = (0, 1)`). -/
def TrigOracle : Type := ℚ → ℚ × ℚ

/-- `SceneManager::SetTransformations` (SceneManager.cpp lines 253-283):
`modelView = translation * rotationX * rotationY * rotationZ * scale`,
rotation angles in degrees converted to radians before `glm::rotate`
(represented by the oracle), then pushed as the `model` uniform. -/
def setTransformations (trig : TrigOracle) (scaleXYZ : Vec3)
    (XrotationDegrees YrotationDegrees ZrotationDegrees : ℚ)
    (positionXYZ : Vec3) (sh : ShaderState) : ShaderState :=
  let rx := rotationXM (trig XrotationDegrees).1 (trig XrotationDegrees).2
  let ry := rotationYM (trig YrotationDegrees).1 (trig YrotationDegrees).2
  let rz := rotationZM (trig ZrotationDegrees).1 (trig ZrotationDegrees).2
  let modelView :=
    matMul (matMul (matMul (matMul (translationM positionXYZ) rx) ry) rz)
      (scaleM scaleXYZ)
  { sh with modelMatrix := modelView }

/-! ## Scene graph operations -/

/-- `SceneManager::AddMeshToScene` (SceneManager.cpp lines 572-591):
builds a `MESH_OBJECT` from the arguments — `isRotating` is NOT among
them and keeps its in-class initializer `false` — and appends it. -/
def addMeshToScene (tag : String) (position rotation scale : Vec3)
    (materialTag textureTag : String) (uvScale : Vec2)
    (shaderColor : Vec4) (drawFn : Option DrawKind)
    (st : SceneState) : SceneState :=
  { st with
    m_meshes := st.m_meshes ++
      [{ tag := tag, rotation := rotation, position := position,
         scale := scale, materialTag := materialTag,
         textureTag := textureTag, uvScale := uvScale,
         shaderColor := shaderColor, drawFunction := drawFn,
         isRotating := false }] }

/-- `SceneManager::AddBox` (SceneManager.cpp lines 598-603). -/
def addBox (st : SceneState) : SceneState :=
  addMeshToScene "box" ⟨0, 0, 0⟩ ⟨0, 0, 0⟩ ⟨1, 1, 1⟩ "" "" ⟨1, 1⟩
    ⟨1, 1, 1, 1⟩ (some .box) st

/-- `SceneManager::AddCone` (SceneManager.cpp lines 610-615). -/
def addCone (st : SceneState) : SceneState :=
  addMeshToScene "cone" ⟨0, 0, 0⟩ ⟨0, 0, 0⟩ ⟨1, 1, 1⟩ "" "" ⟨1, 1⟩
    ⟨1, 1, 1, 1⟩ (some .cone) st

/-- `SceneManager::AddCylinder` (SceneManager.cpp lines 622-627). -/
def addCylinder (st : SceneState) : SceneState :=
  addMeshToScene "cylinder" ⟨0, 0, 0⟩ ⟨0, 0, 0⟩ ⟨1, 1, 1⟩ "" "" ⟨1, 1⟩
    ⟨1, 1, 1, 1⟩ (some .cylinder) st

/-- `SceneManager::AddPlane` (SceneManager.cpp lines 634-639). -/
def addPlane (st : SceneState) : SceneState :=
  addMeshToScene "plane" ⟨0, 0, 0⟩ ⟨0, 0, 0⟩ ⟨1, 1, 1⟩ "" "" ⟨1, 1⟩
    ⟨1, 1, 1, 1⟩ (some .plane) st

/-- `SceneManager::AddPrism` (SceneManager.cpp lines 646-651). -/
def addPrism (st : SceneState) : SceneState :=
  addMeshToScene "prism" ⟨0, 0, 0⟩ ⟨0, 0, 0⟩ ⟨1, 1, 1⟩ "" "" ⟨1, 1⟩
    ⟨1, 1, 1, 1⟩ (some .prism) st

/-- `SceneManager::AddPyramid3` (SceneManager.cpp lines 658-663). -/
def addPyramid3 (st : SceneState) : SceneState :=
  addMeshToScene "pyramid3" ⟨0, 0, 0⟩ ⟨0, 0, 0⟩ ⟨1, 1, 1⟩ "" "" ⟨1, 1⟩
    ⟨1, 1, 1, 1⟩ (some .pyramid3) st

/-- `SceneManager::AddPyramid4` (SceneManager.cpp lines 670-675). -/
def addPyramid4 (st : SceneState) : SceneState :=
  addMeshToScene "pyramid4" ⟨0, 0, 0⟩ ⟨0, 0, 0⟩ ⟨1, 1, 1⟩ "" "" ⟨1, 1⟩
    ⟨1, 1, 1, 1⟩ (some .pyramid4) st

/-- `SceneManager::AddSphere` (SceneManager.cpp lines 682-687). -/
def addSphere (st : SceneState) : SceneState :=
  addMeshToScene "sphere" ⟨0, 0, 0⟩ ⟨0, 0, 0⟩ ⟨1, 1, 1⟩ "" "" ⟨1, 1⟩
    ⟨1, 1, 1, 1⟩ (some .sphere) st

/-- `SceneManager::AddTaperedCylinder` (SceneManager.cpp lines 694-699). -/
def addTaperedCylinder (st : SceneState) : SceneState :=
  addMeshToScene "tapered cylinder" ⟨0, 0, 0⟩ ⟨0, 0, 0⟩ ⟨1, 1, 1⟩ "" ""
    ⟨1, 1⟩ ⟨1, 1, 1, 1⟩ (some .taperedCylinder) st

/-- `SceneManager::AddTorus` (SceneManager.cpp lines 706-711). -/
def addTorus (st : SceneState) : SceneState :=
  addMeshToScene "torus" ⟨0, 0, 0⟩ ⟨0, 0, 0⟩ ⟨1, 1, 1⟩ "" "" ⟨1, 1⟩
    ⟨1, 1, 1, 1⟩ (some .torus) st

/-- `SceneManager::RemoveMesh` (SceneManager.cpp lines 748-754): erase
the element at `index` only when `index >= 0 && index <
m_meshes.size()`; otherwise do nothing. -/
def removeMesh (index : Int) (st : SceneState) : SceneState :=
  if 0 ≤ index ∧ index < (st.m_meshes.length : Int) then
    { st with m_meshes := st.m_meshes.eraseIdx index.toNat }
  else
    st

/-! ## The per-instance render pass (`RenderMeshes`) -/

/-- The in-place mutation performed on each mesh at the top of the
`RenderMeshes` loop body (SceneManager.cpp lines 723-728) when the
guard is taken: `mesh.rotation.y += 0.2f; if (mesh.rotation.y > 360.0f)
mesh.rotation.y -= 360.0f;`.  The guard read there is the unqualified
member `isRotating` — the scene-level flag of the `SceneManager`
object (SceneManager.h line 157), not the per-mesh field. -/
def advanceMesh (sceneIsRotating : Bool) (m : MESH_OBJECT) : MESH_OBJECT :=
  if sceneIsRotating then
    let y1 := m.rotation.y + 2 / 10
    let y2 := if y1 > 360 then y1 - 360 else y1
    { m with rotation := { m.rotation with y := y2 } }
  else
    m

/-- The body of the `RenderMeshes` loop for one mesh (SceneManager.cpp
lines 721-740): advance the rotation under the scene-level flag, then
`SetTransformations`, `SetShaderMaterial`, `SetShaderTexture`,
`SetTextureUVScale`, `SetShaderColor` in that order, then invoke
`drawFunction` if the capture is non-empty.  Returns the mutated mesh,
the shader state after the five setters, and the list of draw
invocations issued (empty or a singleton). -/
def renderOneMesh (trig : TrigOracle) (uninit : OBJECT_MATERIAL)
    (sceneIsRotating : Bool) (mats : List OBJECT_MATERIAL)
    (texs : List TEXTURE_INFO) (m : MESH_OBJECT) (sh : ShaderState) :
    MESH_OBJECT × ShaderState × List DrawKind :=
  let m1 := advanceMesh sceneIsRotating m
  let sh1 := setTransformations trig m1.scale m1.rotation.x m1.rotation.y
    m1.rotation.z m1.position sh
  let sh2 := setShaderMaterial uninit mats m1.materialTag sh1
  let sh3 := setShaderTexture texs m1.textureTag sh2
  let sh4 := setTextureUVScale m1.uvScale.x m1.uvScale.y sh3
  let sh5 := setShaderColor m1.shaderColor sh4
  let evs := match m1.drawFunction with
    | some d => [d]
    | none => []
  (m1, sh5, evs)

/-- The `RenderMeshes` loop over a mesh list, threading the shader
state and concatenating the draw invocations in order. -/
def renderMeshList (trig : TrigOracle) (uninit : OBJECT_MATERIAL)
    (sceneIsRotating : Bool) (mats : List OBJECT_MATERIAL)
    (texs : List TEXTURE_INFO) :
    List MESH_OBJECT → ShaderState →
    List MESH_OBJECT × ShaderState × List DrawKind
  | [], sh => ([], sh, [])
  | m :: rest, sh =>
    let r1 := renderOneMesh trig uninit sceneIsRotating mats texs m sh
    let r2 := renderMeshList trig uninit sceneIsRotating mats texs rest r1.2.1
    (r1.1 :: r2.1, r2.2.1, r1.2.2 ++ r2.2.2)

/-- `SceneManager::RenderMeshes` (SceneManager.cpp lines 718-741):
iterate `for (auto& mesh : m_meshes)`, mutating each mesh in place and
pushing shader state per mesh; the returned draw list records every
`mesh.drawFunction()` invocation in order. -/
def renderMeshes (trig : TrigOracle) (uninit : OBJECT_MATERIAL)
    (st : SceneState) (sh : ShaderState) :
    SceneState × ShaderState × List DrawKind :=
  let r := renderMeshList trig uninit st.isRotating st.m_objectMaterials
    st.m_textureIDs st.m_meshes sh
  ({ st with m_meshes := r.1 }, r.2.1, r.2.2)

/-! ## Scene serialization (`SerializeSceneData`, `DeserializeSceneData`) -/

/-- One JSON record of the scene file: exactly the nine fields written
by `SerializeSceneData` (SceneManager.cpp lines 921-930).  The
`drawFunction` member is not serialized. -/
structure SceneRecord where
  tag : String
  position : Vec3
  rotation : Vec3
  scale : Vec3
  materialTag : String
  textureTag : String
  uvScale : Vec2
  shaderColor : Vec4
  isRotating : Bool
deriving DecidableEq

/-- The record `SerializeSceneData` writes for one mesh. -/
def toRecord (m : MESH_OBJECT) : SceneRecord where
  tag := m.tag
  position := m.position
  rotation := m.rotation
  scale := m.scale
  materialTag := m.materialTag
  textureTag := m.textureTag
  uvScale := m.uvScale
  shaderColor := m.shaderColor
  isRotating := m.isRotating

/-- `SceneManager::SerializeSceneData` (SceneManager.cpp lines
915-941): the scene file's JSON array holds one record per mesh of
`m_meshes`, in order.  Writing the text to disk is external I/O; the
model's value is the file's content. -/
def serializeSceneData (meshes : List MESH_OBJECT) : List SceneRecord :=
  meshes.map toRecord

/-! ## Model import (`LoadModel`, `ProcessNode`, `ProcessMesh`) -/

/-- An Assimp node: the index counts of the meshes attached to that
node, and its child nodes.  (Per-mesh vertex data is uploaded to fresh
GPU buffers in `ProcessMesh`; only the index count survives into the
draw capture.) -/
inductive AiNode where
  | node (meshIndexCounts : List Nat) (children : List AiNode)

/-- The Assimp import collaborator: maps an asset path to the parsed
scene's root node, or `none` when `ReadFile` fails / the scene is
incomplete / the root is missing. -/
def ImportEnv : Type := String → Option AiNode

/-- The non-tag parameters threaded through `LoadModel`, `ProcessNode`
and `ProcessMesh`. -/
structure ImportParams where
  position : Vec3
  rotation : Vec3
  scale : Vec3
  materialTag : String
  textureTag : String
  uvScale : Vec2
  shaderColor : Vec4
  isRotating : Bool

/-- `SceneManager::ProcessMesh` (SceneManager.cpp lines 832-907):
upload the mesh to fresh buffers, append the instance via
`AddMeshToScene` with a draw capture over the buffers, then set
`m_meshes.back().isRotating = isRotating` (the one creation path that
forwards the flag).  `vao` abstracts the generated vertex-array
handle. -/
def processMesh (tag : String) (p : ImportParams) (vao indexCount : Nat)
    (st : SceneState) : SceneState :=
  let st1 := addMeshToScene tag p.position p.rotation p.scale
    p.materialTag p.textureTag p.uvScale p.shaderColor
    (some (.imported vao indexCount)) st
  { st1 with
    m_meshes := st1.m_meshes.dropLast ++
      (st1.m_meshes.getLast?.map fun m =>
        { m with isRotating := p.isRotating }).toList }

/-- Append the per-node meshes: for the i-th mesh of the node,
`ProcessMesh` is called with tag `tag + std::to_string(i)`
(SceneManager.cpp lines 801-811); each `glGenVertexArrays` yields a
fresh handle, abstracted here by the running index. -/
def processNodeMeshes (tag : String) (p : ImportParams) :
    List Nat → Nat → SceneState → SceneState
  | [], _, st => st
  | c :: cs, i, st =>
    processNodeMeshes tag p cs (i + 1)
      (processMesh (tag ++ toString i) p i c st)

mutual

/-- `SceneManager::ProcessNode` (SceneManager.cpp lines 794-822):
process this node's meshes (tag suffixed with the per-node mesh
ordinal), then recurse into the children with the ORIGINAL tag. -/
def processNode (tag : String) (p : ImportParams) :
    AiNode → SceneState → SceneState
  | .node counts children, st =>
    processNodeChildren tag p children (processNodeMeshes tag p counts 0 st)

/-- The child loop of `ProcessNode`. -/
def processNodeChildren (tag : String) (p : ImportParams) :
    List AiNode → SceneState → SceneState
  | [], st => st
  | c :: cs, st => processNodeChildren tag p cs (processNode tag p c st)

end

/-- `SceneManager::LoadModel` (SceneManager.cpp lines 763-785): parse
the asset via the importer; on failure report and return with no
instance added; on success walk the node hierarchy from the root. -/
def loadModel (env : ImportEnv) (filename tag : String)
    (p : ImportParams) (st : SceneState) : SceneState :=
  match env filename with
  | none => st
  | some root => processNode tag p root st

/-! ## Deserialization -/

/-- The `ImportParams` carried by a scene record. -/
def recordParams (r : SceneRecord) : ImportParams where
  position := r.position
  rotation := r.rotation
  scale := r.scale
  materialTag := r.materialTag
  textureTag := r.textureTag
  uvScale := r.uvScale
  shaderColor := r.shaderColor
  isRotating := r.isRotating

/-- The bare `MESH_OBJECT mesh;` built at SceneManager.cpp lines
1016-1025: all nine persisted fields restored, `drawFunction` left as
the default-constructed empty `std::function`. -/
def meshOfRecord (r : SceneRecord) : MESH_OBJECT where
  tag := r.tag
  rotation := r.rotation
  position := r.position
  scale := r.scale
  materialTag := r.materialTag
  textureTag := r.textureTag
  uvScale := r.uvScale
  shaderColor := r.shaderColor
  drawFunction := none
  isRotating := r.isRotating

/-- The reconstruction branch for one primitive substring hit:
`AddMeshToScene` with the restored fields and a freshly bound
primitive draw capture (SceneManager.cpp lines 1028-1117).  Note
`AddMeshToScene` takes no `isRotating` argument, so the restored flag
is dropped (the new mesh's flag is the default `false`). -/
def reconPrimitive (r : SceneRecord) (k : DrawKind) (st : SceneState) :
    SceneState :=
  addMeshToScene r.tag r.position r.rotation r.scale r.materialTag
    r.textureTag r.uvScale r.shaderColor (some k) st

/-- The four fixed imported-model asset paths hard-coded in
`DeserializeSceneData` (SceneManager.cpp lines 978-1013). -/
def bunnyPath : String := "../../Models/bunny.obj"

/-- Asset path for the Lucy model. -/
def lucyPath : String := "../../Models/lucy.obj"

/-- Asset path for the Suzanne model. -/
def suzannePath : String := "../../Models/suzanne.obj"

/-- Asset path for the Teapot model. -/
def teapotPath : String := "../../Models/teapot.obj"

/-- The per-record body of the `DeserializeSceneData` loop
(SceneManager.cpp lines 964-1121): the four imported-model substring
tests first (re-import from the fixed asset path), then the ten
primitive substring tests in source order ("tapered cylinder" before
"cylinder"), and finally the bare-record fallback
`m_meshes.push_back(mesh)`. -/
def reconstructRecord (env : ImportEnv) (st : SceneState)
    (r : SceneRecord) : SceneState :=
  if strContains r.tag "Stanford Bunny" then
    loadModel env bunnyPath r.tag (recordParams r) st
  else if strContains r.tag "Lucy" then
    loadModel env lucyPath r.tag (recordParams r) st
  else if strContains r.tag "Suzanne" then
    loadModel env suzannePath r.tag (recordParams r) st
  else if strContains r.tag "Teapot" then
    loadModel env teapotPath r.tag (recordParams r) st
  else if strContains r.tag "box" then
    reconPrimitive r .box st
  else if strContains r.tag "cone" then
    reconPrimitive r .cone st
  else if strContains r.tag "tapered cylinder" then
    reconPrimitive r .taperedCylinder st
  else if strContains r.tag "cylinder" then
    reconPrimitive r .cylinder st
  else if strContains r.tag "plane" then
    reconPrimitive r .plane st
  else if strContains r.tag "prism" then
    reconPrimitive r .prism st
  else if strContains r.tag "pyramid3" then
    reconPrimitive r .pyramid3 st
  else if strContains r.tag "pyramid4" then
    reconPrimitive r .pyramid4 st
  else if strContains r.tag "sphere" then
    reconPrimitive r .sphere st
  else if strContains r.tag "torus" then
    reconPrimitive r .torus st
  else
    { st with m_meshes := st.m_meshes ++ [meshOfRecord r] }

/-- `SceneManager::DeserializeSceneData` (SceneManager.cpp lines
949-1122): when the file cannot be opened, report the error and return
with the state untouched (`file` is `none`); otherwise clear
`m_meshes` and reconstruct every record in order. -/
def deserializeSceneData (file : Option (List SceneRecord))
    (env : ImportEnv) (st : SceneState) : SceneState :=
  match file with
  | none => st
  | some recs => recs.foldl (reconstructRecord env) { st with m_meshes := [] }

/-- Tag matches one of the four known imported-model name substrings
(the model branch of `DeserializeSceneData`). -/
def recognizedModelTag (tag : String) : Bool :=
  strContains tag "Stanford Bunny" || strContains tag "Lucy" ||
    strContains tag "Suzanne" || strContains tag "Teapot"

/-- Tag matches one of the ten known primitive-shape substrings (the
primitive branch of `DeserializeSceneData`). -/
def recognizedPrimitiveTag (tag : String) : Bool :=
  strContains tag "box" || strContains tag "cone" ||
    strContains tag "tapered cylinder" || strContains tag "cylinder" ||
    strContains tag "plane" || strContains tag "prism" ||
    strContains tag "pyramid3" || strContains tag "pyramid4" ||
    strContains tag "sphere" || strContains tag "torus"

/-! ## Concrete fixtures used by witnesses and counterexamples -/

/-- Sampled trig values sufficient for the concrete angles 0 and 90
degrees: `cos 0 = 1, sin 0 = 0, cos 90 = 0, sin 90 = 1`. -/
def trigSample : TrigOracle := fun θ => if θ = 90 then (0, 1) else (1, 0)

/-- The identity matrix, as the initial `model` uniform. -/
def mat4Id : Mat4 := ⟨1, 0, 0, 0, 0, 1, 0, 0, 0, 0, 1, 0, 0, 0, 0, 1⟩

/-- An initial shader uniform store. -/
def shInit : ShaderState where
  modelMatrix := mat4Id
  ambientColor := ⟨0, 0, 0⟩
  ambientStrength := 0
  diffuseColor := ⟨0, 0, 0⟩
  specularColor := ⟨0, 0, 0⟩
  shininess := 0
  bUseTexture := false
  textureSampler := -1
  objectColor := ⟨0, 0, 0, 0⟩
  uvScale := ⟨1, 1⟩

/-- The "default" material registered by `DefineObjectMaterials`
(SceneManager.cpp lines 436-444). -/
def defaultMaterial : OBJECT_MATERIAL where
  ambientStrength := 4 / 10
  ambientColor := ⟨3 / 10, 3 / 10, 3 / 10⟩
  diffuseColor := ⟨1 / 2, 1 / 2, 1 / 2⟩
  specularColor := ⟨2 / 10, 2 / 10, 2 / 10⟩
  shininess := 16
  tag := "default"

/-- A stand-in for the indeterminate contents of the uninitialized
local `OBJECT_MATERIAL material;` in `SetShaderMaterial`. -/
def junkMaterial : OBJECT_MATERIAL where
  ambientStrength := 999
  ambientColor := ⟨999, 999, 999⟩
  diffuseColor := ⟨999, 999, 999⟩
  specularColor := ⟨999, 999, 999⟩
  shininess := 999
  tag := ""

/-- An import environment in which every asset path fails to parse. -/
def envNone : ImportEnv := fun _ => none

/-- An empty scene-manager state. -/
def stEmpty : SceneState where
  m_meshes := []
  m_textureIDs := []
  m_objectMaterials := []
  isRotating := false

/-- A default-valued box instance (the mesh `AddBox` appends). -/
def meshBox : MESH_OBJECT where
  tag := "box"
  rotation := ⟨0, 0, 0⟩
  position := ⟨0, 0, 0⟩
  scale := ⟨1, 1, 1⟩
  materialTag := ""
  textureTag := ""
  uvScale := ⟨1, 1⟩
  shaderColor := ⟨1, 1, 1, 1⟩
  drawFunction := some .box
  isRotating := false

/-- A box instance whose per-instance rotation flag is set. -/
def meshBoxRot : MESH_OBJECT := { meshBox with isRotating := true }

/-- A box instance referring to a registered texture tag. -/
def meshTex : MESH_OBJECT := { meshBox with textureTag := "floor" }

/-- A scene whose single mesh uses texture "floor", registered at
slot 0 with GPU handle 7. -/
def stTex : SceneState :=
  { stEmpty with m_meshes := [meshTex], m_textureIDs := [⟨"floor", 7⟩] }

/-- A box instance at Y-rotation 359.9 degrees with the per-instance
rotation flag set. -/
def meshRot : MESH_OBJECT :=
  { meshBoxRot with rotation := ⟨0, 3599 / 10, 0⟩ }

/-- A scene holding `meshRot` while the scene-level `isRotating` flag
is `false`. -/
def stRot : SceneState := { stEmpty with m_meshes := [meshRot] }

/-- A scene-manager state whose 16 texture slots are all occupied. -/
def st16 : SceneState :=
  { stEmpty with m_textureIDs := List.replicate 16 ⟨"tex", 5⟩ }

/-- A three-instance scene for the removal witness. -/
def stDemo : SceneState :=
  { stEmpty with
    m_meshes := [meshBox, { meshBox with tag := "cone" },
      { meshBox with tag := "sphere" }] }

/-- A serialized record whose tag matches no model and no primitive
substring. -/
def recWidget : SceneRecord where
  tag := "widget"
  position := ⟨0, 0, 0⟩
  rotation := ⟨0, 0, 0⟩
  scale := ⟨1, 1, 1⟩
  materialTag := ""
  textureTag := ""
  uvScale := ⟨1, 1⟩
  shaderColor := ⟨1, 1, 1, 1⟩
  isRotating := false

/-- A shader state holding the previously-pushed "default" material
values. -/
def shPrior : ShaderState :=
  { shInit with
    ambientColor := ⟨3 / 10, 3 / 10, 3 / 10⟩
    ambientStrength := 4 / 10
    diffuseColor := ⟨1 / 2, 1 / 2, 1 / 2⟩
    specularColor := ⟨2 / 10, 2 / 10, 2 / 10⟩
    shininess := 16 }

/-! ## Helper lemmas -/

/-- The rotation advance touches only the rotation field. -/
theorem advanceMesh_drawFunction (b : Bool) (m : MESH_OBJECT) :
    (advanceMesh b m).drawFunction = m.drawFunction := by
  unfold advanceMesh
  split <;> rfl

/-- The mesh list after `RenderMeshes` is the pointwise rotation
advance under the scene-level flag. -/
theorem renderMeshList_meshes (trig : TrigOracle) (uninit : OBJECT_MATERIAL)
    (flag : Bool) (mats : List OBJECT_MATERIAL) (texs : List TEXTURE_INFO) :
    ∀ (L : List MESH_OBJECT) (sh : ShaderState),
      (renderMeshList trig uninit flag mats texs L sh).1
        = L.map (advanceMesh flag)
  | [], _ => rfl
  | m :: rest, sh => by
    simp only [renderMeshList, renderOneMesh, List.map_cons]
    exact congrArg _ (renderMeshList_meshes trig uninit flag mats texs rest _)

/-- The draw invocations of `RenderMeshes` are exactly the non-empty
draw captures of the mesh list, in order. -/
theorem renderMeshList_events (trig : TrigOracle) (uninit : OBJECT_MATERIAL)
    (flag : Bool) (mats : List OBJECT_MATERIAL) (texs : List TEXTURE_INFO) :
    ∀ (L : List MESH_OBJECT) (sh : ShaderState),
      (renderMeshList trig uninit flag mats texs L sh).2.2
        = L.filterMap (fun m => m.drawFunction)
  | [], _ => rfl
  | m :: rest, sh => by
    simp only [renderMeshList, renderOneMesh, List.filterMap_cons,
      advanceMesh_drawFunction]
    rw [renderMeshList_events trig uninit flag mats texs rest _]
    cases m.drawFunction <;> rfl

/-! ## Claim theorems -/

/-- Claim C10: every primitive add operation appends exactly one
instance to the end of the list, leaving the existing instances
unchanged, whose tag is exactly the primitive's name string, with
position (0,0,0), rotation (0,0,0), scale (1,1,1), empty material and
texture tags, uvScale (1,1), shaderColor (1,1,1,1) and
isRotating = false; and every such tag is recognized by the
deserializer's primitive-substring matcher. -/
theorem addPrimitives_spec (st : SceneState) :
    addBox st = { st with m_meshes := st.m_meshes ++
      [{ tag := "box", rotation := ⟨0, 0, 0⟩, position := ⟨0, 0, 0⟩,
         scale := ⟨1, 1, 1⟩, materialTag := "", textureTag := "",
         uvScale := ⟨1, 1⟩, shaderColor := ⟨1, 1, 1, 1⟩,
         drawFunction := some .box, isRotating := false }] } ∧
    addCone st = { st with m_meshes := st.m_meshes ++
      [{ tag := "cone", rotation := ⟨0, 0, 0⟩, position := ⟨0, 0, 0⟩,
         scale := ⟨1, 1, 1⟩, materialTag := "", textureTag := "",
         uvScale := ⟨1, 1⟩, shaderColor := ⟨1, 1, 1, 1⟩,
         drawFunction := some .cone, isRotating := false }] } ∧
    addCylinder st = { st with m_meshes := st.m_meshes ++
      [{ tag := "cylinder", rotation := ⟨0, 0, 0⟩, position := ⟨0, 0, 0⟩,
         scale := ⟨1, 1, 1⟩, materialTag := "", textureTag := "",
         uvScale := ⟨1, 1⟩, shaderColor := ⟨1, 1, 1, 1⟩,
         drawFunction := some .cylinder, isRotating := false }] } ∧
    addPlane st = { st with m_meshes := st.m_meshes ++
      [{ tag := "plane", rotation := ⟨0, 0, 0⟩, position := ⟨0, 0, 0⟩,
         scale := ⟨1, 1, 1⟩, materialTag := "", textureTag := "",
         uvScale := ⟨1, 1⟩, shaderColor := ⟨1, 1, 1, 1⟩,
         drawFunction := some .plane, isRotating := false }] } ∧
    addPrism st = { st with m_meshes := st.m_meshes ++
      [{ tag := "prism", rotation := ⟨0, 0, 0⟩, position := ⟨0, 0, 0⟩,
         scale := ⟨1, 1, 1⟩, materialTag := "", textureTag := "",
         uvScale := ⟨1, 1⟩, shaderColor := ⟨1, 1, 1, 1⟩,
         drawFunction := some .prism, isRotating := false }] } ∧
    addPyramid3 st = { st with m_meshes := st.m_meshes ++
      [{ tag := "pyramid3", rotation := ⟨0, 0, 0⟩, position := ⟨0, 0, 0⟩,
         scale := ⟨1, 1, 1⟩, materialTag := "", textureTag := "",
         uvScale := ⟨1, 1⟩, shaderColor := ⟨1, 1, 1, 1⟩,
         drawFunction := some .pyramid3, isRotating := false }] } ∧
    addPyramid4 st = { st with m_meshes := st.m_meshes ++
      [{ tag := "pyramid4", rotation := ⟨0, 0, 0⟩, position := ⟨0, 0, 0⟩,
         scale := ⟨1, 1, 1⟩, materialTag := "", textureTag := "",
         uvScale := ⟨1, 1⟩, shaderColor := ⟨1, 1, 1, 1⟩,
         drawFunction := some .pyramid4, isRotating := false }] } ∧
    addSphere st = { st with m_meshes := st.m_meshes ++
      [{ tag := "sphere", rotation := ⟨0, 0, 0⟩, position := ⟨0, 0, 0⟩,
         scale := ⟨1, 1, 1⟩, materialTag := "", textureTag := "",
         uvScale := ⟨1, 1⟩, shaderColor := ⟨1, 1, 1, 1⟩,
         drawFunction := some .sphere, isRotating := false }] } ∧
    addTaperedCylinder st = { st with m_meshes := st.m_meshes ++
      [{ tag := "tapered cylinder", rotation := ⟨0, 0, 0⟩,
         position := ⟨0, 0, 0⟩, scale := ⟨1, 1, 1⟩, materialTag := "",
         textureTag := "", uvScale := ⟨1, 1⟩, shaderColor := ⟨1, 1, 1, 1⟩,
         drawFunction := some .taperedCylinder, isRotating := false }] } ∧
    addTorus st = { st with m_meshes := st.m_meshes ++
      [{ tag := "torus", rotation := ⟨0, 0, 0⟩, position := ⟨0, 0, 0⟩,
         scale := ⟨1, 1, 1⟩, materialTag := "", textureTag := "",
         uvScale := ⟨1, 1⟩, shaderColor := ⟨1, 1, 1, 1⟩,
         drawFunction := some .torus, isRotating := false }] } ∧
    (recognizedPrimitiveTag "box" = true ∧
     recognizedPrimitiveTag "cone" = true ∧
     recognizedPrimitiveTag "cylinder" = true ∧
     recognizedPrimitiveTag "plane" = true ∧
     recognizedPrimitiveTag "prism" = true ∧
     recognizedPrimitiveTag "pyramid3" = true ∧
     recognizedPrimitiveTag "pyramid4" = true ∧
     recognizedPrimitiveTag "sphere" = true ∧
     recognizedPrimitiveTag "tapered cylinder" = true ∧
     recognizedPrimitiveTag "torus" = true) :=
  ⟨rfl, rfl, rfl, rfl, rfl, rfl, rfl, rfl, rfl, rfl, by decide⟩

/-- Claim C8: when the scene file cannot be opened for reading, the
load operation returns with the in-memory state — in particular the
instance list — exactly as it was. -/
theorem deserialize_openFailure (env : ImportEnv) (st : SceneState) :
    deserializeSceneData none env st = st ∧
    (deserializeSceneData none env st).m_meshes = st.m_meshes :=
  ⟨rfl, rfl⟩

/-- Claim C5 (failing input): with all 16 texture slots occupied, a
further load of a successfully decoded 3-channel image does NOT fail:
`CreateGLTexture` returns `true` and performs the unchecked store
`m_textureIDs[16] = ...` (modelled as the append taking the registry to
17 entries), instead of rejecting the registration. -/
theorem textureCapacity_overflow :
    st16.m_textureIDs.length = TEXTURE_SLOTS ∧
    (createGLTexture (some ⟨3, 99⟩) "seventeenth" st16).1 = true ∧
    ((createGLTexture (some ⟨3, 99⟩) "seventeenth" st16).2).m_textureIDs.length
      = TEXTURE_SLOTS + 1 := by
  decide

/-- Claim C3 (failing input): for an instance whose non-empty
`textureTag` resolves to slot 0, the per-instance pipeline ends with
`bUseTexture = false` — `SetShaderColor`, invoked after
`SetShaderTexture`, unconditionally clears the flag — so the claimed
final flag value `true` does not hold; the resolved slot is pushed but
then the flat shader color is selected for every instance. -/
theorem textureFlag_cleared :
    stTex.m_meshes.map (fun m => m.textureTag) = ["floor"] ∧
    findTextureSlot stTex.m_textureIDs "floor" = 0 ∧
    ((renderMeshes trigSample junkMaterial stTex shInit).2.1).bUseTexture = false ∧
    ((renderMeshes trigSample junkMaterial stTex shInit).2.1).textureSampler = 0 ∧
    ((renderMeshes trigSample junkMaterial stTex shInit).2.1).objectColor
      = ⟨1, 1, 1, 1⟩ := by
  decide

/-- Claim C2 (failing input): looking up the unregistered tag
"nonexistent" against a non-empty registry, `FindMaterial` returns
`true` with the out-parameter untouched (`bFound` is dead), so
`SetShaderMaterial` pushes the five fields of its uninitialized local —
stood in for by `junkMaterial` — overwriting the previously-pushed
values rather than leaving them unchanged. -/
theorem materialMiss_pushes_uninitialized :
    findMaterial [defaultMaterial] "nonexistent" = (true, none) ∧
    (setShaderMaterial junkMaterial [defaultMaterial] "nonexistent" shPrior).ambientColor
      = junkMaterial.ambientColor ∧
    (setShaderMaterial junkMaterial [defaultMaterial] "nonexistent" shPrior).ambientStrength
      = junkMaterial.ambientStrength ∧
    (setShaderMaterial junkMaterial [defaultMaterial] "nonexistent" shPrior).diffuseColor
      = junkMaterial.diffuseColor ∧
    (setShaderMaterial junkMaterial [defaultMaterial] "nonexistent" shPrior).specularColor
      = junkMaterial.specularColor ∧
    (setShaderMaterial junkMaterial [defaultMaterial] "nonexistent" shPrior).shininess
      = junkMaterial.shininess ∧
    (setShaderMaterial junkMaterial [defaultMaterial] "nonexistent" shPrior).ambientStrength
      ≠ shPrior.ambientStrength := by
  refine ⟨by decide, by decide, by decide, by decide, by decide, by decide, ?_⟩
  simp [setShaderMaterial, findMaterial, defaultMaterial, junkMaterial, shPrior]
  norm_num

/-- Claim C6: removal at an out-of-range index (negative or at least
the count) leaves the state unchanged; removal at an in-range index
removes exactly the i-th instance, reduces the count by one, keeps the
instances below i in place, and shifts every instance above i down by
one position. -/
theorem removeMesh_spec (i : Int) (st : SceneState) :
    ((i < 0 ∨ (st.m_meshes.length : Int) ≤ i) → removeMesh i st = st) ∧
    (0 ≤ i → i < (st.m_meshes.length : Int) →
      (removeMesh i st).m_meshes.length = st.m_meshes.length - 1 ∧
      (removeMesh i st).m_meshes
        = st.m_meshes.take i.toNat ++ st.m_meshes.drop (i.toNat + 1) ∧
      (∀ j : Nat, j < i.toNat →
        (removeMesh i st).m_meshes[j]? = st.m_meshes[j]?) ∧
      (∀ j : Nat, i.toNat ≤ j →
        (removeMesh i st).m_meshes[j]? = st.m_meshes[j + 1]?)) := by
  constructor
  · intro h
    unfold removeMesh
    rw [if_neg]
    omega
  · intro h0 hlt
    have hnat : i.toNat < st.m_meshes.length := by omega
    have hif : removeMesh i st
        = { st with m_meshes := st.m_meshes.eraseIdx i.toNat } := by
      unfold removeMesh
      rw [if_pos ⟨h0, hlt⟩]
    rw [hif]
    refine ⟨?_, ?_, ?_, ?_⟩
    · simp only [List.length_eraseIdx, if_pos hnat]
    · exact List.eraseIdx_eq_take_drop_succ _ _
    · intro j hj
      rw [List.eraseIdx_eq_take_drop_succ, List.getElem?_append,
        List.getElem?_take]
      rw [if_pos hj]
      rw [if_pos (show j < (st.m_meshes.take i.toNat).length by
        simp only [List.length_take]; omega)]
    · intro j hj
      rw [List.eraseIdx_eq_take_drop_succ]
      have hlen : (st.m_meshes.take i.toNat).length = i.toNat := by
        simp only [List.length_take]
        omega
      rcases Nat.lt_or_ge j (st.m_meshes.take i.toNat).length with hc | hc
      · omega
      · rw [List.getElem?_append_right hc, List.getElem?_drop, hlen]
        congr 1
        omega

/-- Witness for C6, the spec's three-instance example: indices -1 and 3
are no-ops leaving the count at 3, and removing index 2 reduces the
count to 2. -/
theorem removeMesh_spec_witness :
    removeMesh (-1) stDemo = stDemo ∧
    removeMesh 3 stDemo = stDemo ∧
    (removeMesh 2 stDemo).m_meshes.length = 2 :=
  ⟨(removeMesh_spec (-1) stDemo).1 (Or.inl (by decide)),
   (removeMesh_spec 3 stDemo).1 (Or.inr (by decide)),
   by
    have h := ((removeMesh_spec 2 stDemo).2 (by decide) (by decide)).1
    rw [h]
    rfl⟩

/-- Counterexample to claim C4 as stated: `stRot` holds one instance
with the per-instance flag `isRotating = true` and Y-rotation 359.9,
but the scene-level flag is `false`, and one render pass leaves the
instance's Y-rotation at 359.9 — not the claimed 0.1 — because the
loop guard reads the scene-level `isRotating`, not the instance's. -/
theorem renderMeshes_rotation_cex :
    stRot.m_meshes.map (fun m => m.isRotating) = [true] ∧
    ((renderMeshes trigSample junkMaterial stRot shInit).1).m_meshes.map
      (fun m => m.rotation.y) = [3599 / 10] ∧
    (3599 / 10 : ℚ) ≠ 1 / 10 := by
  refine ⟨by decide, ?_, by norm_num⟩
  simp [renderMeshes, renderMeshList, renderOneMesh, advanceMesh, stRot,
    meshRot, meshBoxRot, meshBox, stEmpty]

/-- Claim C4 amended: the Y-rotation advance in `RenderMeshes` is
governed by the scene-level `isRotating` flag and applies to every
instance uniformly, the per-instance flag having no effect: each render
pass maps the list through the advance step; with the scene flag false
every instance is unchanged; with the scene flag true every instance's
Y-rotation grows by 0.2 degrees, with 360 subtracted once when the sum
exceeds 360 — in particular 359.9 becomes 0.1. -/
theorem renderMeshes_rotation_amended (trig : TrigOracle)
    (uninit : OBJECT_MATERIAL) (st : SceneState) (sh : ShaderState) :
    ((renderMeshes trig uninit st sh).1).m_meshes
      = st.m_meshes.map (advanceMesh st.isRotating) ∧
    (∀ m : MESH_OBJECT, advanceMesh false m = m) ∧
    (∀ m : MESH_OBJECT, m.rotation.y + 2 / 10 ≤ 360 →
      (advanceMesh true m).rotation.y = m.rotation.y + 2 / 10) ∧
    (∀ m : MESH_OBJECT, 360 < m.rotation.y + 2 / 10 →
      (advanceMesh true m).rotation.y = m.rotation.y + 2 / 10 - 360) ∧
    (∀ m : MESH_OBJECT, m.rotation.y = 3599 / 10 →
      (advanceMesh true m).rotation.y = 1 / 10) := by
  refine ⟨renderMeshList_meshes trig uninit st.isRotating
    st.m_objectMaterials st.m_textureIDs st.m_meshes sh, fun m => rfl,
    ?_, ?_, ?_⟩
  · intro m h
    simp only [advanceMesh, if_true]
    rw [if_neg (not_lt.mpr h)]
  · intro m h
    simp only [advanceMesh, if_true]
    rw [if_pos h]
  · intro m h
    simp only [advanceMesh, if_true]
    rw [if_pos (by rw [h]; norm_num), h]
    norm_num

/-- Witness for the amended C4 at concrete inputs: with the scene flag
false the mesh list of `stRot` is returned unchanged, and the advance
step at Y-rotation 359.9 yields 0.1. -/
theorem renderMeshes_rotation_amended_witness :
    ((renderMeshes trigSample junkMaterial stRot shInit).1).m_meshes
      = stRot.m_meshes.map (advanceMesh false) ∧
    (advanceMesh true meshRot).rotation.y = 1 / 10 :=
  ⟨(renderMeshes_rotation_amended trigSample junkMaterial stRot shInit).1,
   (renderMeshes_rotation_amended trigSample junkMaterial stRot shInit).2.2.2.2
     meshRot rfl⟩

/-- Claim C7: the model matrix pushed by `SetTransformations` is the
product Translation × RotationX × RotationY × RotationZ × Scale (with
the rotation angles fed through the degree-to-radian cosine/sine
oracle); applying it to the origin yields exactly the position vector,
for every scale, every rotation (i.e. every oracle value) and every
position; in particular for scale (2,1,1), rotation (0,90,0) — where
cos 0 = 1, sin 0 = 0, cos 90 = 0, sin 90 = 1 exactly — and position
(5,0,0), the model matrix sends the origin to (5,0,0). -/
theorem setTransformations_spec (trig : TrigOracle) (s : Vec3)
    (rx ry rz : ℚ) (p : Vec3) (sh : ShaderState) :
    (setTransformations trig s rx ry rz p sh).modelMatrix
      = matMul (matMul (matMul (matMul (translationM p)
          (rotationXM (trig rx).1 (trig rx).2))
          (rotationYM (trig ry).1 (trig ry).2))
          (rotationZM (trig rz).1 (trig rz).2)) (scaleM s) ∧
    applyToPoint (setTransformations trig s rx ry rz p sh).modelMatrix
      origin0 = p ∧
    applyToPoint (setTransformations trigSample ⟨2, 1, 1⟩ 0 90 0
      ⟨5, 0, 0⟩ shInit).modelMatrix origin0 = ⟨5, 0, 0⟩ := by
  refine ⟨rfl, ?_, ?_⟩
  · simp [applyToPoint, setTransformations, matMul, translationM,
      rotationXM, rotationYM, rotationZM, scaleM, origin0]
  · simp [applyToPoint, setTransformations, trigSample, matMul,
      translationM, rotationXM, rotationYM, rotationZM, scaleM, origin0]

/-- Claim C9: a serialized record whose tag contains none of the four
imported-model substrings and none of the ten primitive substrings is
restored by deserialization as a bare data record with an empty draw
capture, and the render pass issues no draw invocation for it (the
presence check on the capture skips it) while the pass itself completes
normally. -/
theorem deserialize_unrecognized_inert (r : SceneRecord) (env : ImportEnv)
    (st : SceneState) (trig : TrigOracle) (uninit : OBJECT_MATERIAL)
    (sh : ShaderState)
    (hm : recognizedModelTag r.tag = false)
    (hp : recognizedPrimitiveTag r.tag = false) :
    (deserializeSceneData (some [r]) env st).m_meshes = [meshOfRecord r] ∧
    (meshOfRecord r).drawFunction = none ∧
    (renderMeshes trig uninit (deserializeSceneData (some [r]) env st)
      sh).2.2 = [] := by
  simp only [recognizedModelTag, Bool.or_eq_false_iff] at hm
  simp only [recognizedPrimitiveTag, Bool.or_eq_false_iff] at hp
  obtain ⟨⟨⟨h1, h2⟩, h3⟩, h4⟩ := hm
  obtain ⟨⟨⟨⟨⟨⟨⟨⟨⟨p1, p2⟩, p3⟩, p4⟩, p5⟩, p6⟩, p7⟩, p8⟩, p9⟩, p10⟩ := hp
  have hdes : (deserializeSceneData (some [r]) env st).m_meshes
      = [meshOfRecord r] := by
    simp [deserializeSceneData, reconstructRecord, h1, h2, h3, h4, p1, p2,
      p3, p4, p5, p6, p7, p8, p9, p10]
  refine ⟨hdes, rfl, ?_⟩
  have hev := renderMeshList_events trig uninit
    (deserializeSceneData (some [r]) env st).isRotating
    (deserializeSceneData (some [r]) env st).m_objectMaterials
    (deserializeSceneData (some [r]) env st).m_textureIDs
    (deserializeSceneData (some [r]) env st).m_meshes sh
  rw [renderMeshes]
  rw [hev, hdes]
  rfl

/-- Witness for C9: the concrete tag "widget" matches no recognized
substring; its record round-trips to an inert mesh and produces no draw
invocation. -/
theorem deserialize_unrecognized_inert_witness :
    (deserializeSceneData (some [recWidget]) envNone stEmpty).m_meshes
      = [meshOfRecord recWidget] ∧
    (meshOfRecord recWidget).drawFunction = none ∧
    (renderMeshes trigSample junkMaterial
      (deserializeSceneData (some [recWidget]) envNone stEmpty)
      shInit).2.2 = [] :=
  deserialize_unrecognized_inert recWidget envNone stEmpty trigSample
    junkMaterial shInit (by decide) (by decide)

/-- Under the primitive branch of `DeserializeSceneData` (no model
substring matches, some primitive substring matches), reconstruction
appends exactly one mesh whose nine persisted fields are the record's,
except that `isRotating` is reset to `false` because `AddMeshToScene`
does not forward it. -/
theorem reconstructRecord_primitive (env : ImportEnv) (st : SceneState)
    (r : SceneRecord)
    (hm : recognizedModelTag r.tag = false)
    (hp : recognizedPrimitiveTag r.tag = true) :
    (reconstructRecord env st r).m_meshes.map toRecord
      = st.m_meshes.map toRecord ++ [{ r with isRotating := false }] := by
  simp only [recognizedModelTag, Bool.or_eq_false_iff] at hm
  obtain ⟨⟨⟨h1, h2⟩, h3⟩, h4⟩ := hm
  by_cases p1 : strContains r.tag "box"
  · simp [reconstructRecord, h1, h2, h3, h4, p1, reconPrimitive,
      addMeshToScene, toRecord]
  by_cases p2 : strContains r.tag "cone"
  · simp [reconstructRecord, h1, h2, h3, h4, p1, p2, reconPrimitive,
      addMeshToScene, toRecord]
  by_cases p3 : strContains r.tag "tapered cylinder"
  · simp [reconstructRecord, h1, h2, h3, h4, p1, p2, p3, reconPrimitive,
      addMeshToScene, toRecord]
  by_cases p4 : strContains r.tag "cylinder"
  · simp [reconstructRecord, h1, h2, h3, h4, p1, p2, p3, p4, reconPrimitive,
      addMeshToScene, toRecord]
  by_cases p5 : strContains r.tag "plane"
  · simp [reconstructRecord, h1, h2, h3, h4, p1, p2, p3, p4, p5, reconPrimitive,
      addMeshToScene, toRecord]
  by_cases p6 : strContains r.tag "prism"
  · simp [reconstructRecord, h1, h2, h3, h4, p1, p2, p3, p4, p5, p6, reconPrimitive,
      addMeshToScene, toRecord]
  by_cases p7 : strContains r.tag "pyramid3"
  · simp [reconstructRecord, h1, h2, h3, h4, p1, p2, p3, p4, p5, p6, p7, reconPrimitive,
      addMeshToScene, toRecord]
  by_cases p8 : strContains r.tag "pyramid4"
  · simp [reconstructRecord, h1, h2, h3, h4, p1, p2, p3, p4, p5, p6, p7, p8, reconPrimitive,
      addMeshToScene, toRecord]
  by_cases p9 : strContains r.tag "sphere"
  · simp [reconstructRecord, h1, h2, h3, h4, p1, p2, p3, p4, p5, p6, p7, p8, p9, reconPrimitive,
      addMeshToScene, toRecord]
  by_cases p10 : strContains r.tag "torus"
  · simp [reconstructRecord, h1, h2, h3, h4, p1, p2, p3, p4, p5, p6, p7, p8, p9, p10, reconPrimitive,
      addMeshToScene, toRecord]
  exfalso
  simp [recognizedPrimitiveTag, p1, p2, p3, p4, p5, p6, p7, p8, p9, p10] at hp

/-- Folding the deserializer over records that all take a primitive
branch appends their reconstructions in order, with every `isRotating`
reset to `false`. -/
theorem deserialize_foldl_primitives (env : ImportEnv) :
    ∀ (recs : List SceneRecord) (st : SceneState),
      (∀ r ∈ recs, recognizedModelTag r.tag = false ∧
        recognizedPrimitiveTag r.tag = true) →
      (recs.foldl (reconstructRecord env) st).m_meshes.map toRecord
        = st.m_meshes.map toRecord ++
          recs.map (fun r => { r with isRotating := false })
  | [], st, _ => by simp
  | r :: rest, st, h => by
    have hr := h r (List.mem_cons_self r rest)
    have hrest : ∀ x ∈ rest, recognizedModelTag x.tag = false ∧
        recognizedPrimitiveTag x.tag = true :=
      fun x hx => h x (List.mem_cons_of_mem r hx)
    simp only [List.foldl_cons, List.map_cons]
    rw [deserialize_foldl_primitives env rest (reconstructRecord env st r)
      hrest]
    rw [reconstructRecord_primitive env st r hr.1 hr.2]
    simp

/-- Counterexample to claim C1 as stated: the one-instance list holding
a "box" (a reconstructable primitive tag) with `isRotating = true` does
NOT round-trip field-for-field — the reconstruction path
(`AddMeshToScene`) drops `isRotating`, so the restored instance differs
from the original in that field. -/
theorem round_trip_cex :
    (deserializeSceneData (some (serializeSceneData [meshBoxRot])) envNone
      stEmpty).m_meshes.map toRecord ≠ [meshBoxRot].map toRecord := by
  decide

/-- Claim C1 amended: for every instance list S whose instances all
have tags containing a recognized primitive substring and none of the
four imported-model substrings, and all have `isRotating = false`,
deserializing the file produced by serializing S yields a list equal to
S field for field (tag, position, rotation, scale, materialTag,
textureTag, uvScale, shaderColor, isRotating), excluding only the draw
action. -/
theorem round_trip_primitives (env : ImportEnv) (st0 : SceneState)
    (S : List MESH_OBJECT)
    (h : ∀ m ∈ S, recognizedPrimitiveTag m.tag = true ∧
      recognizedModelTag m.tag = false ∧ m.isRotating = false) :
    (deserializeSceneData (some (serializeSceneData S)) env
      st0).m_meshes.map toRecord = S.map toRecord := by
  unfold deserializeSceneData serializeSceneData
  rw [deserialize_foldl_primitives env (S.map toRecord) _ ?hyp]
  case hyp =>
    intro r hr
    obtain ⟨m, hm, rfl⟩ := List.mem_map.mp hr
    exact ⟨(h m hm).2.1, (h m hm).1⟩
  simp only [List.map_nil, List.map_map, List.nil_append]
  apply List.map_congr_left
  intro m hm
  have hfalse := (h m hm).2.2
  simp [toRecord, Function.comp, hfalse]

/-- Witness for the amended C1: a one-instance "box" list with
`isRotating = false` round-trips field-for-field. -/
theorem round_trip_primitives_witness :
    (deserializeSceneData (some (serializeSceneData [meshBox])) envNone
      stEmpty).m_meshes.map toRecord = [meshBox].map toRecord :=
  round_trip_primitives envNone stEmpty [meshBox] (by decide)

end Credenza
